import Mathlib

/-!
Shallow embedding of the workshop-registration checkout flow
(payments/views.py) and proofs of its specified properties.

Money (Python `Decimal`) is embedded as `ℚ`, which is exact; requests,
sessions and the ORM database are explicit records; an uncaught Python
exception is an explicit `error` outcome.
-/

namespace Payments

/-- Modelled from the spec: the `Rate` ORM model (models.py is not part of
the provided sources).  Fields are the ones read by views.py: `id` (pk),
`name`, `price`, `capacity`, `ticket_count`, and the discount gating
fields added by migration 0021. -/
structure Rate where
  id : Nat
  name : String
  price : ℚ
  capacity : Int
  ticket_count : Int
  discount : Bool
  discount_code : String
  deriving Repr, DecidableEq

/-- Modelled from the spec: the `Workshop` ORM model.  Fields used by
views.py: `slug`, `draft`, `public`, `private_code`. -/
structure Workshop where
  slug : String
  draft : Bool
  public : Bool
  private_code : String
  deriving Repr, DecidableEq

/-- Modelled from the spec: the persisted `Order` ORM model: unique
`transaction_id` (a UUID, embedded as a `Nat` drawn from a fresh-id
supply), contact fields, `order_total`, and the nullable settlement
fields written by the gateway callback.  `id` is the primary key used
by `save()`. -/
structure Order where
  id : Nat
  transaction_id : Nat
  contact_name : String
  contact_email : String
  order_total : ℚ
  billed_total : Option String
  billed_datetime : Option String
  deriving Repr, DecidableEq

/-- Modelled from the spec: the persisted `OrderItem` ORM model: foreign
keys to its `Order` and `Rate`, plus the attendee name and email. -/
structure OrderItem where
  order_id : Nat
  rate_id : Nat
  email : String
  name : String
  deriving Repr, DecidableEq

/-- One ticket draft of the session order, as written by
`OrderDetail.formset_valid`: rate id plus attendee email and name. -/
structure Ticket where
  rate_id : Nat
  email : String
  name : String
  deriving Repr, DecidableEq

/-- The session `order` dict built by `WorkshopDetail.form_valid`:
workshop slug, contact name/email from the posted form data, the
selected rate id/name pairs, the raw per-rate quantities, the computed
`order_total`, and — only after the attendee-form step — the `tickets`
list (`none` embeds the key being absent). -/
structure SessionOrder where
  workshop : String
  name : String
  email : String
  rates : List (Nat × String)
  quantities : List (String × Nat)
  order_total : ℚ
  tickets : Option (List Ticket)
  deriving Repr, DecidableEq

/-- The per-user Django session as used by views.py.  For
`discount_code` the outer `Option` embeds presence of the key, the
inner one the stored value (the key is set to Python `None` when the
`rate` query parameter is absent). -/
structure Session where
  order : Option SessionOrder
  discount_code : Option (Option String)
  private_code : Option String
  deriving Repr, DecidableEq

/-- The ORM database state: all rates, orders and order items, plus a
fresh-id supply standing for autoincrement pks / generated UUIDs. -/
structure Database where
  rates : List Rate
  orders : List Order
  orderItems : List OrderItem
  next_id : Nat
  deriving Repr, DecidableEq

/-- Django settings read by views.py (configuration constants). -/
structure Settings where
  LMID : String
  PAYMENT_TITLE : String
  PAYMENT_DESCRIPTION : String
  PAYMENT_CONTACT_INFO : String
  PSF_SPEEDTYPE : String
  PSF_ACCT_NUMBER : String
  PAYMENT_URL : String
  deriving Repr, DecidableEq

/-- A value of the outbound gateway payload: either a plain string, or a
`Decimal` serialised with `str()` (kept as its exact value). -/
inductive PV where
  | s (v : String)
  | d (v : ℚ)
  deriving Repr, DecidableEq

/-- An HTTP response produced by a view: a redirect, a rendered page, a
plain status/body response, or the relay of an outbound gateway POST
(`requests.post` followed by echoing the gateway's reply). -/
inductive Response where
  | redirect (url : String)
  | render (page : String)
  | http (status : Nat) (body : String)
  | gatewayRelay (url : String) (payload : List (String × PV))
  deriving Repr, DecidableEq

/-- Modelled from the spec: URL of the catalog root (`payments:index`),
per the route table of the spec (urls.py is not under the provided
sources). -/
def indexUrl : String := "/"

/-- Modelled from the spec: URL of the Rate Selector / workshop detail
page (`payments:details`) for a workshop slug. -/
def detailsUrl (slug : String) : String := "/" ++ slug ++ "/"

/-- Modelled from the spec: URL of the attendee-detail step
(`payments:order_details`). -/
def orderDetailsUrl (slug : String) : String := "/" ++ slug ++ "/order/"

/-- Modelled from the spec: URL of the confirmation step
(`payments:confirm`). -/
def confirmUrl (slug : String) : String := "/" ++ slug ++ "/confirm/"

/-- Python truthiness of an optional string (`if self.private_code:`):
`None` and the empty string are falsy. -/
def optTruthy : Option String → Bool
  | none => false
  | some s => decide (s ≠ "")

/-! ## urllib.parse.quote_plus

`SubmitOrder.post` escapes names with `quote_plus` (imported as `qp`).
The embedding reproduces CPython: characters in `ALWAYS_SAFE`
(ASCII letters, digits, `_`, `.`, `-`, `~`) pass through, a space
becomes `+`, every other character is percent-encoded byte-wise from
its UTF-8 encoding with uppercase hex digits. -/

/-- Uppercase hexadecimal digit for a value below 16. -/
def hexDigit (n : Nat) : Char :=
  if n < 10 then Char.ofNat (48 + n) else Char.ofNat (55 + n)

/-- Percent-encoding of one byte, e.g. byte 64 becomes `%40`. -/
def byteHex (b : Nat) : String :=
  String.mk ['%', hexDigit (b / 16 % 16), hexDigit (b % 16)]

/-- UTF-8 bytes of a Unicode code point. -/
def utf8Bytes (n : Nat) : List Nat :=
  if n < 128 then [n]
  else if n < 2048 then [192 + n / 64, 128 + n % 64]
  else if n < 65536 then [224 + n / 4096, 128 + n / 64 % 64, 128 + n % 64]
  else [240 + n / 262144, 128 + n / 4096 % 64, 128 + n / 64 % 64, 128 + n % 64]

/-- Membership of CPython's `ALWAYS_SAFE` set (letters, digits and
`_.-~`); `quote_plus` passes `safe=''`, so nothing else is safe. -/
def isAlwaysSafe (c : Char) : Bool :=
  (decide ('A' ≤ c) && decide (c ≤ 'Z')) ||
  (decide ('a' ≤ c) && decide (c ≤ 'z')) ||
  (decide ('0' ≤ c) && decide (c ≤ '9')) ||
  decide (c = '_') || decide (c = '.') || decide (c = '-') || decide (c = '~')

/-- Escaping of one character under `quote_plus`. -/
def quotePlusChar (c : Char) : String :=
  if isAlwaysSafe c then String.singleton c
  else if c = ' ' then "+"
  else String.join ((utf8Bytes c.toNat).map byteHex)

/-- Embedding of `urllib.parse.quote_plus` (the `qp` of views.py). -/
def quotePlus (s : String) : String :=
  String.join (s.data.map quotePlusChar)

/-- Character-level worker for Python's `str.split(' ')`: cut at every
space, keeping empty pieces; never returns the empty list. -/
def splitSpaceChars : List Char → List (List Char)
  | [] => [[]]
  | c :: rest =>
      if c = ' ' then [] :: splitSpaceChars rest
      else
        match splitSpaceChars rest with
        | t :: ts => (c :: t) :: ts
        | [] => [[c]]

/-- Python's `str.split(' ')` (used on `order.contact_name`). -/
def splitName (s : String) : List String :=
  (splitSpaceChars s.data).map String.mk

/-! ## WorkshopList (Workshop Catalog) -/

/-- Embedding of `WorkshopList.get_queryset`: if a truthy private code
was supplied, take the workshops whose `private_code` matches it; if
no code was supplied or that match is empty, fall back to all
workshops with `draft=False`. -/
def workshopListQueryset (workshops : List Workshop) (private_code : Option String) :
    List Workshop :=
  let queryset : Option (List Workshop) :=
    if optTruthy private_code then
      some (workshops.filter (fun w => decide (some w.private_code = private_code)))
    else none
  match queryset with
  | none => workshops.filter (fun w => !w.draft)
  | some q => if q.length = 0 then workshops.filter (fun w => !w.draft) else q

/-- Embedding of `WorkshopList.get`: stash a truthy `code` query
parameter in the session, then answer with the queryset. -/
def workshopListGet (workshops : List Workshop) (code_param : Option String)
    (s : Session) : Session × List Workshop :=
  let s' := if optTruthy code_param then { s with private_code := code_param } else s
  (s', workshopListQueryset workshops code_param)

/-! ## WorkshopDetail (Rate Selector) -/

/-- A GET request to the Rate Selector: the optional `rate` query
parameter and whether the requesting user is authenticated. -/
structure DetailRequest where
  rate_param : Option String
  authenticated : Bool
  deriving Repr, DecidableEq

/-- Embedding of `WorkshopDetail.get`: first unconditionally write the
`rate` query parameter (possibly `None`) into the session under
`discount_code`, then redirect unauthenticated viewers of a draft
workshop to the catalog root; otherwise return the rendered page. -/
def workshopDetailGet (w : Workshop) (req : DetailRequest) (s : Session) :
    Session × Response :=
  let s' := { s with discount_code := some req.rate_param }
  if !req.authenticated && w.draft then (s', .redirect indexUrl)
  else (s', .render (detailsUrl w.slug))

/-- Association-list lookup of one posted quantity by rate name
(`form.data[rate.name]`); `none` embeds a raised `KeyError`. -/
def lookupQty (data : List (String × Nat)) (k : String) : Option Nat :=
  (data.find? (fun p => decide (p.1 = k))).map (fun p => p.2)

/-- Embedding of the total loop of `WorkshopDetail.form_valid`:
`order_total = 0; for rate in form.rate_set: order_total +=
Decimal(form.data[rate.name]) * rate.price`, over exact `Decimal`
(here `ℚ`) arithmetic.  `none` embeds a `KeyError` on a missing
quantity. -/
def computeOrderTotal (rate_set : List Rate) (data : List (String × Nat)) :
    Option ℚ :=
  rate_set.foldlM (fun acc r => (lookupQty data r.name).map
    (fun (q : Nat) => acc + (q : ℚ) * r.price)) 0

/-- Embedding of `WorkshopDetail.form_valid`: build the session order
skeleton (workshop slug, contact data, rate id/name pairs, raw
quantities, computed `order_total`, no tickets yet), store it in the
session and redirect to the attendee-detail step. -/
def formValid (w : Workshop) (rate_set : List Rate) (data : List (String × Nat))
    (contact_name contact_email : String) (s : Session) :
    Option (Session × Response) :=
  (computeOrderTotal rate_set data).map (fun total =>
    let od : SessionOrder :=
      { workshop := w.slug
        name := contact_name
        email := contact_email
        rates := rate_set.map (fun r => (r.id, r.name))
        quantities := data
        order_total := total
        tickets := none }
    ({ s with order := some od }, Response.redirect (orderDetailsUrl w.slug)))

/-! ## SessionConfirmMixin, OrderDetail, ConfirmOrder -/

/-- Embedding of `SessionConfirmMixin.get`: with no `order` in the
session, redirect to the Rate Selector for the slug; otherwise fall
through to the wrapped view's rendering. -/
def sessionConfirmGet (slug : String) (s : Session) (inner : Response) :
    Session × Response :=
  if s.order.isNone then (s, .redirect (detailsUrl slug)) else (s, inner)

/-- Embedding of a GET of `OrderDetail` (the attendee form set), which
is guarded by `SessionConfirmMixin`. -/
def orderDetailGet (slug : String) (s : Session) : Session × Response :=
  sessionConfirmGet slug s (.render "payments/order_detail.html")

/-- Embedding of a GET of `ConfirmOrder`, which is guarded by
`SessionConfirmMixin`. -/
def confirmOrderGet (slug : String) (s : Session) : Session × Response :=
  sessionConfirmGet slug s (.render "payments/workshop_confirm.html")

/-! ## SubmitOrder (Order Submission) -/

/-- Lookup of a `Rate` by primary key (`Rate.objects.get(id=...)`);
`none` embeds a raised `Rate.DoesNotExist`. -/
def findRate (db : Database) (i : Nat) : Option Rate :=
  db.rates.find? (fun r => decide (r.id = i))

/-- Resolution of every ticket of the session order to its `Rate` row,
in ticket order. -/
def resolveRates (db : Database) (ts : List Ticket) :
    Option (List (Rate × Ticket)) :=
  ts.mapM (fun t => (findRate db t.rate_id).map (fun r => (r, t)))

/-- One step of the per-rate tally dict: increment an existing key or
append a new one (Python dicts preserve insertion order). -/
def bump : List (Rate × Nat) → Rate → List (Rate × Nat)
  | [], r => [(r, 1)]
  | (r', q) :: rest, r =>
      if r' = r then (r', q + 1) :: rest else (r', q) :: bump rest r

/-- Embedding of the tally loop of `SubmitOrder.post`: group the
resolved tickets by rate, counting the requested quantity per rate,
in first-occurrence order. -/
def tallyRates (rs : List (Rate × Ticket)) : List (Rate × Nat) :=
  (rs.map (fun p => p.1)).foldl bump []

/-- The capacity warning emitted by `SubmitOrder.post`, with the exact
message format of the source. -/
def capacityWarningMsg (rateName : String) (remaining : Int) : String :=
  "There are too many " ++ rateName ++ " tickets in this order. " ++
    "Ticket(s) remaining at this rate: " ++ toString remaining ++ "."

/-- The `Order` row created by `Order.objects.create(...)`: contact
fields and total from the session order, fresh pk and transaction id,
settlement fields still null. -/
def mkOrder (db : Database) (od : SessionOrder) : Order :=
  { id := db.next_id
    transaction_id := db.next_id
    contact_name := od.name
    contact_email := od.email
    order_total := od.order_total
    billed_total := none
    billed_datetime := none }

/-- Key of one metadata payload cell, `metadata_item_<col>,<row>`. -/
def metaKey (col i : Nat) : String :=
  "metadata_item_" ++ toString col ++ "," ++ toString i

/-- The six payload cells that `SubmitOrder.post` emits for ticket `i`:
description (rate name, `quote_plus`-escaped attendee name, raw
attendee email), the constant quantity `"1"`, unit and extended price
(both the rate's price), and the two static accounting codes. -/
def metaBlock (cfg : Settings) (r : Rate) (t : Ticket) (i : Nat) :
    List (String × PV) :=
  [ (metaKey 0 i, .s (r.name ++ ": " ++ quotePlus t.name ++ " (" ++ t.email ++ ")"))
  , (metaKey 1 i, .s "1")
  , (metaKey 2 i, .d r.price)
  , (metaKey 3 i, .d r.price)
  , (metaKey 4 i, .s cfg.PSF_SPEEDTYPE)
  , (metaKey 5 i, .s cfg.PSF_ACCT_NUMBER) ]

/-- The `enumerate(order_data['tickets'])` loop of `SubmitOrder.post`,
emitting one metadata block per ticket, with `i` counting from the
given start index. -/
def metaItemsFrom (cfg : Settings) : Nat → List (Rate × Ticket) → List (String × PV)
  | _, [] => []
  | i, (r, t) :: rest => metaBlock cfg r t i ++ metaItemsFrom cfg (i + 1) rest

/-- Embedding of the gateway payload built by `SubmitOrder.post`. -/
def buildPayload (cfg : Settings) (order : Order) (rs : List (Rate × Ticket)) :
    List (String × PV) :=
  let name := splitName order.contact_name
  [ ("LMID", PV.s cfg.LMID)
  , ("unique_id", PV.s (toString order.transaction_id))
  , ("sTotal", PV.d order.order_total)
  , ("webTitle", PV.s cfg.PAYMENT_TITLE)
  , ("Trans_Desc", PV.s cfg.PAYMENT_DESCRIPTION)
  , ("contact_info", PV.s cfg.PAYMENT_CONTACT_INFO)
  , ("BILL_CUSTOMER_EMAIL", PV.s order.contact_email)
  , ("BILL_CUSTOMER_FIRSTNAME", PV.s (quotePlus name.headI))
  , ("BILL_CUSTOMER_LASTNAME",
      PV.s (if 1 < name.length then quotePlus name.getLastI else ""))
  , ("note", PV.s "")
  , ("arrayname", PV.s "metadata") ]
  ++ metaItemsFrom cfg 0 rs

/-- Lookup of a payload field by key. -/
def payloadGet (p : List (String × PV)) (k : String) : Option PV :=
  (p.find? (fun kv => decide (kv.1 = k))).map (fun kv => kv.2)

/-- Outcome of a POST to `SubmitOrder`: either an uncaught Python
exception (which Django turns into a server error), or a normal
outcome carrying the new database, the new session, the emitted
warning messages and the response. -/
inductive SubmitOutcome where
  | error (exn : String)
  | ok (db : Database) (session : Session) (warnings : List String)
       (response : Response)
  deriving Repr, DecidableEq

/-- Embedding of `SubmitOrder.post`.  Reading a missing session `order`
or a missing `tickets` key raises `KeyError`; an unknown rate id
raises `Rate.DoesNotExist`.  Otherwise: tally per rate, abort with a
warning and a redirect to the Rate Selector on the first rate whose
`ticket_count` plus requested quantity exceeds `capacity`; else create
the `Order`, bulk-create one `OrderItem` per ticket, delete the
session `order`, and relay the gateway POST. -/
def submitOrderPost (cfg : Settings) (db : Database) (s : Session) :
    SubmitOutcome :=
  match s.order with
  | none => .error "KeyError: 'order'"
  | some od =>
    match od.tickets with
    | none => .error "KeyError: 'tickets'"
    | some ts =>
      match resolveRates db ts with
      | none => .error "Rate.DoesNotExist"
      | some rs =>
        match (tallyRates rs).find?
            (fun p => decide (p.1.capacity < p.1.ticket_count + (p.2 : Int))) with
        | some rq =>
          .ok db s
            [capacityWarningMsg rq.1.name (rq.1.capacity - rq.1.ticket_count)]
            (.redirect (detailsUrl od.workshop))
        | none =>
          let order := mkOrder db od
          let items := ts.map (fun t =>
            OrderItem.mk order.id t.rate_id t.email t.name)
          let db' := { db with
            orders := db.orders ++ [order]
            orderItems := db.orderItems ++ items
            next_id := db.next_id + 1 }
          let s' := { s with order := none }
          .ok db' s' [] (.gatewayRelay cfg.PAYMENT_URL (buildPayload cfg order rs))

/-! ## OrderCallback (Settlement Callback) -/

/-- A POST from the gateway to the settlement callback: the three
fields the view reads (`none` embeds an absent key) and the raw
request body used in error logging. -/
structure CallbackRequest where
  unique_id : Option String
  amount : Option String
  date_time : Option String
  body : String
  deriving Repr, DecidableEq

/-- Result of the settlement callback: the database afterwards, the
error-log lines written, and the HTTP response. -/
structure CallbackResult where
  db : Database
  log : List String
  response : Response
  deriving Repr, DecidableEq

/-- Python's rendering of the exceptions the callback catches:
`str(KeyError('k'))` is `'k'` in quotes. -/
def keyErrorStr (k : String) : String := "'" ++ k ++ "'"

/-- Message of `Order.DoesNotExist`. -/
def doesNotExistStr : String := "Order matching query does not exist."

/-- The `logger.error('%s: %s' % (e, request.body))` line. -/
def errorLogLine (e body : String) : String := e ++ ": " ++ body

/-- Lookup of an `Order` by its transaction id against the posted
string (`Order.objects.get(transaction_id=request.POST['unique_id'])`). -/
def findOrderByTid (db : Database) (uid : String) : Option Order :=
  db.orders.find? (fun o => decide (toString o.transaction_id = uid))

/-- Embedding of `OrderCallback.post`: look up the order by
`unique_id`, set `billed_total` and `billed_datetime` from `amount`
and `date_time` and save; on a missing key or no matching order, log
the error with the raw body and answer 400, leaving the database
unchanged; on success answer an empty 200. -/
def orderCallbackPost (db : Database) (p : CallbackRequest) : CallbackResult :=
  match p.unique_id with
  | none => ⟨db, [errorLogLine (keyErrorStr "unique_id") p.body], .http 400 ""⟩
  | some uid =>
    match findOrderByTid db uid with
    | none => ⟨db, [errorLogLine doesNotExistStr p.body], .http 400 ""⟩
    | some o =>
      match p.amount with
      | none => ⟨db, [errorLogLine (keyErrorStr "amount") p.body], .http 400 ""⟩
      | some amt =>
        match p.date_time with
        | none => ⟨db, [errorLogLine (keyErrorStr "date_time") p.body], .http 400 ""⟩
        | some dt =>
          let o' := { o with billed_total := some amt, billed_datetime := some dt }
          ⟨{ db with orders := db.orders.map (fun x => if x.id = o.id then o' else x) },
            [], .http 200 ""⟩

/-! ## Projections and concrete fixtures -/

/-- Whether a submission outcome is a normal redirect response. -/
def SubmitOutcome.isRedirect : SubmitOutcome → Bool
  | .ok _ _ _ (.redirect _) => true
  | _ => false

/-- The outbound gateway payload of a submission outcome (empty when
the outcome relayed no gateway call). -/
def SubmitOutcome.payload : SubmitOutcome → List (String × PV)
  | .ok _ _ _ (.gatewayRelay _ p) => p
  | _ => []

/-- Modelled from the spec: the Workshop Catalog fallback as the spec
words it — all public, non-draft workshops.  Stated only to be
compared against the source's `workshopListQueryset`. -/
def specCatalogFallback (ws : List Workshop) : List Workshop :=
  ws.filter (fun w => w.public && !w.draft)

/-- Example configuration. -/
def exCfg : Settings :=
  ⟨"LM42", "Workshops", "Registration", "help@q2.org", "SPEED1", "ACCT9", "https://gw.example"⟩

/-- Example rate at capacity 2 with 1 ticket already sold. -/
def exRateFull : Rate := ⟨1, "Standard", 100, 2, 1, false, ""⟩

/-- The same rate with capacity 5, leaving room for the example order. -/
def exRateOpen : Rate := ⟨1, "Standard", 100, 5, 1, false, ""⟩

/-- Example tickets of a two-ticket session order. -/
def exTicketA : Ticket := ⟨1, "a@b.com", "A B"⟩

/-- Second example ticket. -/
def exTicketC : Ticket := ⟨1, "c@d.com", "Carol"⟩

/-- Example session order with two tickets at the Standard rate. -/
def exOrderData : SessionOrder :=
  ⟨"intro-2024", "Jane Doe", "jane@d.com", [(1, "Standard")],
    [("Standard", 2)], 200, some [exTicketA, exTicketC]⟩

/-- Example session order whose contact name has no space. -/
def exOrderDataM : SessionOrder :=
  ⟨"intro-2024", "Madonna", "m@d.com", [(1, "Standard")],
    [("Standard", 1)], 100, some [exTicketA]⟩

/-- Session holding `exOrderData`. -/
def exSession : Session := ⟨some exOrderData, none, none⟩

/-- Session holding `exOrderDataM`. -/
def exSessionM : Session := ⟨some exOrderDataM, none, none⟩

/-- Session with no order skeleton. -/
def emptySession : Session := ⟨none, none, none⟩

/-- Database where the example order exceeds the Standard capacity. -/
def exDbFull : Database := ⟨[exRateFull], [], [], 7⟩

/-- Database where the example order fits. -/
def exDbOpen : Database := ⟨[exRateOpen], [], [], 7⟩

/-- Resolution of the example tickets against `exDbFull`. -/
def exResolvedFull : List (Rate × Ticket) := [(exRateFull, exTicketA), (exRateFull, exTicketC)]

/-- Resolution of the example tickets against `exDbOpen`. -/
def exResolvedOpen : List (Rate × Ticket) := [(exRateOpen, exTicketA), (exRateOpen, exTicketC)]

/-- A persisted example order awaiting settlement. -/
def exOrderRow : Order := ⟨7, 7, "Jane Doe", "jane@d.com", 200, none, none⟩

/-- Database holding `exOrderRow`. -/
def exCbDb : Database := ⟨[], [exOrderRow], [], 8⟩

/-- An example public workshop. -/
def exWorkshop : Workshop := ⟨"intro-2024", false, true, ""⟩

/-- A non-draft workshop that is not public (unlisted). -/
def exUnlisted : Workshop := ⟨"secret-2024", false, false, "sesame"⟩

/-- A draft workshop. -/
def exDraft : Workshop := ⟨"draft-2024", true, false, ""⟩

/-! ## Helper lemmas -/

/-- On the success path (session order and tickets present, every rate
resolved, no capacity violation) `SubmitOrder.post` commits one order
with its items, clears the session order and relays the gateway
call. -/
theorem submit_success_eq (cfg : Settings) (db : Database) (s : Session)
    (od : SessionOrder) (ts : List Ticket) (rs : List (Rate × Ticket))
    (ho : s.order = some od) (ht : od.tickets = some ts)
    (hr : resolveRates db ts = some rs)
    (hok : ∀ p ∈ tallyRates rs, ¬ (p.1.capacity < p.1.ticket_count + (p.2 : Int))) :
    submitOrderPost cfg db s =
      .ok { db with
              orders := db.orders ++ [mkOrder db od]
              orderItems := db.orderItems ++ ts.map (fun t =>
                OrderItem.mk (mkOrder db od).id t.rate_id t.email t.name)
              next_id := db.next_id + 1 }
          { s with order := none } []
          (.gatewayRelay cfg.PAYMENT_URL (buildPayload cfg (mkOrder db od) rs)) := by
  have hfind : (tallyRates rs).find?
      (fun p => decide (p.1.capacity < p.1.ticket_count + (p.2 : Int))) = none := by
    rw [List.find?_eq_none]
    intro x hx
    simpa using hok x hx
  simp only [submitOrderPost, ho, ht, hr, hfind]

/-- Every cell of the metadata block of the ticket at position `i`
appears among the metadata items enumerated from start index `j`. -/
theorem metaBlock_mem_metaItemsFrom (cfg : Settings) :
    ∀ (rs : List (Rate × Ticket)) (j i : Nat) (hi : i < rs.length)
      (kv : String × PV),
      kv ∈ metaBlock cfg (rs.get ⟨i, hi⟩).1 (rs.get ⟨i, hi⟩).2 (j + i) →
      kv ∈ metaItemsFrom cfg j rs := by
  intro rs
  induction rs with
  | nil => intro j i hi kv _; exact absurd hi (by simp)
  | cons hd tl ih =>
    intro j i hi kv hkv
    cases i with
    | zero =>
      exact List.mem_append_left _ (by simpa using hkv)
    | succ n =>
      have hn : n < tl.length := Nat.lt_of_succ_lt_succ hi
      have hadd : j + (n + 1) = (j + 1) + n := by omega
      refine List.mem_append_right _ (ih (j + 1) n hn kv ?_)
      rw [hadd] at hkv
      exact hkv

/-- The accumulator form of `computeOrderTotal`: when every rate's
quantity is present in the form data, the fold computes the exact
rational sum of quantity times price. -/
theorem foldl_total_eq_sum (data : List (String × Nat)) :
    ∀ (l : List Rate) (acc : ℚ),
      (∀ r ∈ l, (lookupQty data r.name).isSome) →
      l.foldlM (fun acc r => (lookupQty data r.name).map
        (fun (q : Nat) => acc + (q : ℚ) * r.price)) acc =
      some (acc + (l.map (fun r =>
        (((lookupQty data r.name).getD 0 : Nat) : ℚ) * r.price)).sum) := by
  intro l
  induction l with
  | nil => intro acc _; simp [List.foldlM]
  | cons r l ih =>
    intro acc h
    obtain ⟨q, hq⟩ := Option.isSome_iff_exists.mp (h r (List.mem_cons_self r l))
    have hrest : ∀ x ∈ l, (lookupQty data x.name).isSome :=
      fun x hx => h x (List.mem_cons_of_mem r hx)
    simp only [List.foldlM, hq, Option.map_some', Option.bind_eq_bind,
      Option.some_bind]
    rw [ih (acc + (q : ℚ) * r.price) hrest]
    simp [hq, add_assoc]

/-! ## Claims -/

/-- C1: a submission whose per-rate tally has some rate with
`ticket_count + quantity > capacity` creates no `Order` row and no
`OrderItem` row (the database is returned unchanged), leaves the
session unchanged, emits the warning naming a violating rate with the
exact remaining capacity `capacity - ticket_count`, and redirects to
the Rate Selector of the order's workshop. -/
theorem submit_capacity_aborts (cfg : Settings) (db : Database) (s : Session)
    (od : SessionOrder) (ts : List Ticket) (rs : List (Rate × Ticket))
    (ho : s.order = some od) (ht : od.tickets = some ts)
    (hr : resolveRates db ts = some rs)
    (hviol : ∃ p ∈ tallyRates rs, p.1.capacity < p.1.ticket_count + (p.2 : Int)) :
    ∃ r q, (r, q) ∈ tallyRates rs ∧ r.capacity < r.ticket_count + (q : Int) ∧
      submitOrderPost cfg db s =
        .ok db s [capacityWarningMsg r.name (r.capacity - r.ticket_count)]
          (.redirect (detailsUrl od.workshop)) := by
  have hsome : ((tallyRates rs).find?
      (fun p => decide (p.1.capacity < p.1.ticket_count + (p.2 : Int)))).isSome := by
    rw [List.find?_isSome]
    obtain ⟨p, hp, hlt⟩ := hviol
    exact ⟨p, hp, by simpa using hlt⟩
  obtain ⟨⟨r, q⟩, hfind⟩ := Option.isSome_iff_exists.mp hsome
  have hmem : (r, q) ∈ tallyRates rs := List.mem_of_find?_eq_some hfind
  have hlt : r.capacity < r.ticket_count + (q : Int) := by
    simpa using List.find?_some hfind
  refine ⟨r, q, hmem, hlt, ?_⟩
  simp only [submitOrderPost, ho, ht, hr, hfind]

/-- Witness for C1: the spec's own example — capacity 2, one ticket
sold, two requested — aborts with remaining capacity 1. -/
theorem submit_capacity_aborts_witness :
    ∃ r q, (r, q) ∈ tallyRates exResolvedFull ∧
      r.capacity < r.ticket_count + (q : Int) ∧
      submitOrderPost exCfg exDbFull exSession =
        .ok exDbFull exSession
          [capacityWarningMsg r.name (r.capacity - r.ticket_count)]
          (.redirect (detailsUrl "intro-2024")) :=
  submit_capacity_aborts exCfg exDbFull exSession exOrderData
    [exTicketA, exTicketC] exResolvedFull rfl rfl rfl (by decide)

/-- C2: a submission that passes the capacity check creates exactly one
`Order` row carrying the session order's contact name, contact email
and order total, appends exactly `len(tickets)` `OrderItem` rows each
referencing that order and its ticket's rate, and deletes the `order`
key from the session. -/
theorem submit_success_commits (cfg : Settings) (db : Database) (s : Session)
    (od : SessionOrder) (ts : List Ticket) (rs : List (Rate × Ticket))
    (ho : s.order = some od) (ht : od.tickets = some ts)
    (hr : resolveRates db ts = some rs)
    (hok : ∀ p ∈ tallyRates rs, ¬ (p.1.capacity < p.1.ticket_count + (p.2 : Int))) :
    ∃ (o : Order) (db' : Database) (s' : Session),
      submitOrderPost cfg db s =
        .ok db' s' [] (.gatewayRelay cfg.PAYMENT_URL (buildPayload cfg o rs)) ∧
      o.contact_name = od.name ∧ o.contact_email = od.email ∧
      o.order_total = od.order_total ∧
      db'.orders = db.orders ++ [o] ∧
      db'.orderItems = db.orderItems ++ ts.map (fun t =>
        OrderItem.mk o.id t.rate_id t.email t.name) ∧
      db'.orderItems.length = db.orderItems.length + ts.length ∧
      db'.rates = db.rates ∧
      s' = { s with order := none } := by
  refine ⟨mkOrder db od, _, _,
    submit_success_eq cfg db s od ts rs ho ht hr hok,
    rfl, rfl, rfl, rfl, rfl, ?_, rfl, rfl⟩
  simp

/-- Witness for C2: the example two-ticket order commits one order row
and two item rows and clears the session. -/
theorem submit_success_commits_witness :
    ∃ (o : Order) (db' : Database) (s' : Session),
      submitOrderPost exCfg exDbOpen exSession =
        .ok db' s' [] (.gatewayRelay exCfg.PAYMENT_URL (buildPayload exCfg o exResolvedOpen)) ∧
      o.contact_name = "Jane Doe" ∧ o.contact_email = "jane@d.com" ∧
      o.order_total = 200 ∧
      db'.orders = exDbOpen.orders ++ [o] ∧
      db'.orderItems = exDbOpen.orderItems ++ [exTicketA, exTicketC].map (fun t =>
        OrderItem.mk o.id t.rate_id t.email t.name) ∧
      db'.orderItems.length = exDbOpen.orderItems.length + 2 ∧
      db'.rates = exDbOpen.rates ∧
      s' = { exSession with order := none } :=
  submit_success_commits exCfg exDbOpen exSession exOrderData
    [exTicketA, exTicketC] exResolvedOpen rfl rfl rfl (by decide)

/-- C3 (counterexample): the claim that all three downstream steps
redirect on a missing session order is false — `SubmitOrder.post`
reads `request.session['order']` unguarded, so with no session order
it raises `KeyError` (a server error), not a redirect. -/
theorem submit_missing_order_no_redirect :
    submitOrderPost exCfg exDbOpen emptySession = .error "KeyError: 'order'" ∧
    (submitOrderPost exCfg exDbOpen emptySession).isRedirect = false := by
  exact ⟨rfl, rfl⟩

/-- C3 (amended): with no `order` in the session, the two GET steps
guarded by `SessionConfirmMixin` (attendee form set and confirmation)
mutate nothing and redirect to the Rate Selector, while the submission
POST mutates nothing but raises an uncaught `KeyError` instead of
redirecting. -/
theorem missing_session_order_steps (slug : String) (s : Session)
    (cfg : Settings) (db : Database) (h : s.order = none) :
    orderDetailGet slug s = (s, .redirect (detailsUrl slug)) ∧
    confirmOrderGet slug s = (s, .redirect (detailsUrl slug)) ∧
    submitOrderPost cfg db s = .error "KeyError: 'order'" := by
  refine ⟨?_, ?_, ?_⟩
  · simp [orderDetailGet, sessionConfirmGet, h]
  · simp [confirmOrderGet, sessionConfirmGet, h]
  · simp only [submitOrderPost, h]

/-- Witness for C3 (amended) at the empty session. -/
theorem missing_session_order_steps_witness :
    orderDetailGet "intro-2024" emptySession =
      (emptySession, .redirect (detailsUrl "intro-2024")) ∧
    confirmOrderGet "intro-2024" emptySession =
      (emptySession, .redirect (detailsUrl "intro-2024")) ∧
    submitOrderPost exCfg exDbOpen emptySession = .error "KeyError: 'order'" :=
  missing_session_order_steps "intro-2024" emptySession exCfg exDbOpen rfl

/-- C4: for a valid rate selection (every offered rate's quantity
present in the posted data), the session order skeleton written by
`form_valid` carries `order_total` equal to the exact rational sum of
quantity times price over the offered rates, and the response
redirects to the attendee-detail step. -/
theorem form_valid_total (w : Workshop) (rate_set : List Rate)
    (data : List (String × Nat)) (cn ce : String) (s : Session)
    (h : ∀ r ∈ rate_set, (lookupQty data r.name).isSome) :
    ∃ od : SessionOrder,
      formValid w rate_set data cn ce s =
        some ({ s with order := some od }, .redirect (orderDetailsUrl w.slug)) ∧
      od.order_total = (rate_set.map (fun r =>
        (((lookupQty data r.name).getD 0 : Nat) : ℚ) * r.price)).sum ∧
      od.name = cn ∧ od.email = ce ∧ od.workshop = w.slug := by
  have htot : computeOrderTotal rate_set data =
      some ((rate_set.map (fun r =>
        (((lookupQty data r.name).getD 0 : Nat) : ℚ) * r.price)).sum) := by
    have := foldl_total_eq_sum data rate_set 0 h
    simpa [computeOrderTotal] using this
  refine ⟨{ workshop := w.slug, name := cn, email := ce,
            rates := rate_set.map (fun r => (r.id, r.name)),
            quantities := data,
            order_total := (rate_set.map (fun r =>
              (((lookupQty data r.name).getD 0 : Nat) : ℚ) * r.price)).sum,
            tickets := none }, ?_, rfl, rfl, rfl, rfl⟩
  simp only [formValid, htot, Option.map_some']

/-- Witness for C4: two Standard tickets at price 100 yield an order
total of exactly 200. -/
theorem form_valid_total_witness :
    ∃ od : SessionOrder,
      formValid exWorkshop [exRateOpen] [("Standard", 2)] "Jane Doe" "jane@d.com"
          emptySession =
        some ({ emptySession with order := some od },
          .redirect (orderDetailsUrl "intro-2024")) ∧
      od.order_total = ([exRateOpen].map (fun r =>
        (((lookupQty [("Standard", 2)] r.name).getD 0 : Nat) : ℚ) * r.price)).sum ∧
      od.name = "Jane Doe" ∧ od.email = "jane@d.com" ∧ od.workshop = "intro-2024" :=
  form_valid_total exWorkshop [exRateOpen] [("Standard", 2)] "Jane Doe" "jane@d.com"
    emptySession (by decide)

/-- C5: the settlement callback updates exactly the matched order's
settlement fields and answers an empty 200 when `unique_id` matches a
persisted order and `amount` and `date_time` are present; on a missing
field or no matching order it leaves the database untouched, answers a
bare 400, and logs one line ending in the raw request body. -/
theorem order_callback_spec (db : Database) (p : CallbackRequest) :
    (∀ uid o amt dt, p.unique_id = some uid → findOrderByTid db uid = some o →
      p.amount = some amt → p.date_time = some dt →
      orderCallbackPost db p =
        ⟨{ db with orders := db.orders.map (fun x => if x.id = o.id then
            { o with billed_total := some amt, billed_datetime := some dt } else x) },
          [], .http 200 ""⟩) ∧
    ((p.unique_id = none ∨
      (∃ uid, p.unique_id = some uid ∧ findOrderByTid db uid = none) ∨
      p.amount = none ∨ p.date_time = none) →
      (orderCallbackPost db p).db = db ∧
      (orderCallbackPost db p).response = .http 400 "" ∧
      ∃ e, (orderCallbackPost db p).log = [errorLogLine e p.body]) := by
  constructor
  · intro uid o amt dt hu hf ha hd
    simp only [orderCallbackPost, hu, hf, ha, hd]
  · intro hfail
    rcases hu : p.unique_id with _ | uid
    · exact ⟨by simp [orderCallbackPost, hu], by simp [orderCallbackPost, hu],
        keyErrorStr "unique_id", by simp [orderCallbackPost, hu]⟩
    · rcases hf : findOrderByTid db uid with _ | o
      · exact ⟨by simp [orderCallbackPost, hu, hf], by simp [orderCallbackPost, hu, hf],
          doesNotExistStr, by simp [orderCallbackPost, hu, hf]⟩
      · rcases ha : p.amount with _ | amt
        · exact ⟨by simp [orderCallbackPost, hu, hf, ha],
            by simp [orderCallbackPost, hu, hf, ha],
            keyErrorStr "amount", by simp [orderCallbackPost, hu, hf, ha]⟩
        · rcases hd : p.date_time with _ | dt
          · exact ⟨by simp [orderCallbackPost, hu, hf, ha, hd],
              by simp [orderCallbackPost, hu, hf, ha, hd],
              keyErrorStr "date_time", by simp [orderCallbackPost, hu, hf, ha, hd]⟩
          · exfalso
            rcases hfail with h | ⟨uid', hu', hf'⟩ | h | h
            · exact Option.some_ne_none uid (hu ▸ h)
            · rw [hu] at hu'
              obtain rfl : uid = uid' := by injection hu'
              rw [hf] at hf'
              exact Option.some_ne_none o hf'
            · exact Option.some_ne_none amt (ha ▸ h)
            · exact Option.some_ne_none dt (hd ▸ h)

/-- Witness for C5: a matching callback settles the example order with
an empty 200; a non-matching transaction id answers 400 and leaves the
database unchanged with the error logged with the raw body. -/
theorem order_callback_spec_witness :
    orderCallbackPost exCbDb ⟨some "7", some "200.00", some "2026-01-01T00:00", "raw+body"⟩ =
      ⟨{ exCbDb with orders := exCbDb.orders.map (fun x => if x.id = exOrderRow.id then
          { exOrderRow with billed_total := some "200.00",
                            billed_datetime := some "2026-01-01T00:00" } else x) },
        [], .http 200 ""⟩ ∧
    (orderCallbackPost exCbDb ⟨some "9", some "200.00", some "2026-01-01T00:00", "raw+body"⟩).db
      = exCbDb ∧
    (orderCallbackPost exCbDb ⟨some "9", some "200.00", some "2026-01-01T00:00", "raw+body"⟩).response
      = .http 400 "" ∧
    ∃ e, (orderCallbackPost exCbDb ⟨some "9", some "200.00", some "2026-01-01T00:00", "raw+body"⟩).log
      = [errorLogLine e "raw+body"] := by
  have h2 := (order_callback_spec exCbDb
    ⟨some "9", some "200.00", some "2026-01-01T00:00", "raw+body"⟩).2
    (Or.inr (Or.inl ⟨"9", rfl, rfl⟩))
  exact ⟨(order_callback_spec exCbDb
      ⟨some "7", some "200.00", some "2026-01-01T00:00", "raw+body"⟩).1
      "7" exOrderRow "200.00" "2026-01-01T00:00" rfl rfl rfl rfl,
    h2.1, h2.2.1, h2.2.2⟩

/-- C6: the gateway payload's purchaser name fields come from
splitting the contact name on single spaces: FIRSTNAME is the
URL-escaped first piece, LASTNAME the URL-escaped last piece when the
split has more than one piece (that is, the name contains a space) and
the empty string otherwise. -/
theorem submit_name_split (cfg : Settings) (db : Database) (s : Session)
    (od : SessionOrder) (ts : List Ticket) (rs : List (Rate × Ticket))
    (ho : s.order = some od) (ht : od.tickets = some ts)
    (hr : resolveRates db ts = some rs)
    (hok : ∀ p ∈ tallyRates rs, ¬ (p.1.capacity < p.1.ticket_count + (p.2 : Int))) :
    ∃ db' s' P,
      submitOrderPost cfg db s = .ok db' s' [] (.gatewayRelay cfg.PAYMENT_URL P) ∧
      payloadGet P "BILL_CUSTOMER_FIRSTNAME" =
        some (.s (quotePlus (splitName od.name).headI)) ∧
      payloadGet P "BILL_CUSTOMER_LASTNAME" =
        some (.s (if 1 < (splitName od.name).length
                  then quotePlus (splitName od.name).getLastI else "")) := by
  exact ⟨_, _, buildPayload cfg (mkOrder db od) rs,
    submit_success_eq cfg db s od ts rs ho ht hr hok, rfl, rfl⟩

/-- Witness for C6: the spec's own examples — contact name
`"Jane Doe"` yields FIRSTNAME `"Jane"` and LASTNAME `"Doe"`, and
contact name `"Madonna"` yields FIRSTNAME `"Madonna"` and an empty
LASTNAME. -/
theorem submit_name_split_witness :
    (∃ db' s' P,
      submitOrderPost exCfg exDbOpen exSession = .ok db' s' []
        (.gatewayRelay exCfg.PAYMENT_URL P) ∧
      payloadGet P "BILL_CUSTOMER_FIRSTNAME" = some (.s "Jane") ∧
      payloadGet P "BILL_CUSTOMER_LASTNAME" = some (.s "Doe")) ∧
    (∃ db' s' P,
      submitOrderPost exCfg exDbOpen exSessionM = .ok db' s' []
        (.gatewayRelay exCfg.PAYMENT_URL P) ∧
      payloadGet P "BILL_CUSTOMER_FIRSTNAME" = some (.s "Madonna") ∧
      payloadGet P "BILL_CUSTOMER_LASTNAME" = some (.s "")) := by
  obtain ⟨db', s', P, h, h1, h2⟩ := submit_name_split exCfg exDbOpen exSession
    exOrderData [exTicketA, exTicketC] exResolvedOpen rfl rfl rfl (by decide)
  obtain ⟨db2, s2, P2, g, g1, g2⟩ := submit_name_split exCfg exDbOpen exSessionM
    exOrderDataM [exTicketA] [(exRateOpen, exTicketA)] rfl rfl rfl (by decide)
  refine ⟨⟨db', s', P, h, ?_, ?_⟩, ⟨db2, s2, P2, g, ?_, ?_⟩⟩
  · rw [h1]; decide
  · rw [h2]; decide
  · rw [g1]; decide
  · rw [g2]; decide

/-- C7 (counterexample): with no access code the catalog queryset
filters on `draft=False` only, so the unlisted (non-public, non-draft)
workshop is returned, while the claim's fallback — all public,
non-draft workshops — excludes it. -/
theorem workshop_list_fallback_not_public_only :
    workshopListQueryset [exUnlisted] none = [exUnlisted] ∧
    specCatalogFallback [exUnlisted] = [] :=
  ⟨rfl, rfl⟩

/-- C7 (amended): the catalog returns the workshops matching a truthy
supplied private code when that match is non-empty, and otherwise all
non-draft workshops regardless of their public flag. -/
theorem workshop_list_queryset_cases (ws : List Workshop) (code : Option String) :
    (optTruthy code = true →
      ws.filter (fun w => decide (some w.private_code = code)) ≠ [] →
      workshopListQueryset ws code =
        ws.filter (fun w => decide (some w.private_code = code))) ∧
    ((optTruthy code = false ∨
      ws.filter (fun w => decide (some w.private_code = code)) = []) →
      workshopListQueryset ws code = ws.filter (fun w => !w.draft)) := by
  constructor
  · intro htr hne
    simp only [workshopListQueryset, htr, if_true]
    rw [if_neg]
    simpa [List.length_eq_zero] using hne
  · intro h
    rcases h with h | h
    · simp [workshopListQueryset, h]
    · cases htr : optTruthy code
      · simp [workshopListQueryset, htr]
      · simp [workshopListQueryset, htr, h]

/-- Witness for C7 (amended): the code `"sesame"` selects the matching
unlisted workshop; no code falls back to every non-draft workshop. -/
theorem workshop_list_queryset_cases_witness :
    workshopListQueryset [exUnlisted, exWorkshop] (some "sesame") =
      [exUnlisted, exWorkshop].filter
        (fun w => decide (some w.private_code = some "sesame")) ∧
    workshopListQueryset [exUnlisted, exWorkshop] none =
      [exUnlisted, exWorkshop].filter (fun w => !w.draft) :=
  ⟨(workshop_list_queryset_cases [exUnlisted, exWorkshop] (some "sesame")).1
      rfl (by decide),
   (workshop_list_queryset_cases [exUnlisted, exWorkshop] none).2 (Or.inl rfl)⟩

/-- C8 (counterexample): in the example submission's payload the
description of ticket 0 carries the raw attendee email, not the
URL-escaped one the claim requires (`@` would become `%40`). -/
theorem submit_metadata_email_raw :
    payloadGet (SubmitOutcome.payload (submitOrderPost exCfg exDbOpen exSession))
        (metaKey 0 0) =
      some (.s ("Standard: " ++ quotePlus "A B" ++ " (a@b.com)")) ∧
    ("Standard: " ++ quotePlus "A B" ++ " (a@b.com)") ≠
      ("Standard: " ++ quotePlus "A B" ++ " (" ++ quotePlus "a@b.com" ++ ")") :=
  ⟨rfl, by decide⟩

/-- C8 (amended): for each ticket `i` of a successful submission the
payload contains a metadata block for `i` whose description is the
rate name, the URL-escaped attendee name, and the raw attendee email;
whose quantity cell is the string `"1"`; whose unit-price and
extended-price cells both carry the rate's price; and whose last two
cells are the two static configured accounting codes. -/
theorem submit_metadata_blocks (cfg : Settings) (db : Database) (s : Session)
    (od : SessionOrder) (ts : List Ticket) (rs : List (Rate × Ticket))
    (ho : s.order = some od) (ht : od.tickets = some ts)
    (hr : resolveRates db ts = some rs)
    (hok : ∀ p ∈ tallyRates rs, ¬ (p.1.capacity < p.1.ticket_count + (p.2 : Int)))
    (i : Nat) (hi : i < rs.length) :
    ∃ db' s' P,
      submitOrderPost cfg db s = .ok db' s' [] (.gatewayRelay cfg.PAYMENT_URL P) ∧
      (metaKey 0 i, PV.s ((rs.get ⟨i, hi⟩).1.name ++ ": " ++
        quotePlus (rs.get ⟨i, hi⟩).2.name ++ " (" ++
        (rs.get ⟨i, hi⟩).2.email ++ ")")) ∈ P ∧
      (metaKey 1 i, PV.s "1") ∈ P ∧
      (metaKey 2 i, PV.d (rs.get ⟨i, hi⟩).1.price) ∈ P ∧
      (metaKey 3 i, PV.d (rs.get ⟨i, hi⟩).1.price) ∈ P ∧
      (metaKey 4 i, PV.s cfg.PSF_SPEEDTYPE) ∈ P ∧
      (metaKey 5 i, PV.s cfg.PSF_ACCT_NUMBER) ∈ P := by
  refine ⟨_, _, buildPayload cfg (mkOrder db od) rs,
    submit_success_eq cfg db s od ts rs ho ht hr hok, ?_, ?_, ?_, ?_, ?_, ?_⟩
  all_goals
    simp only [buildPayload]
    refine List.mem_append_right _ ?_
    refine metaBlock_mem_metaItemsFrom cfg rs 0 i hi _ ?_
    rw [Nat.zero_add]
    simp [metaBlock]

/-- Witness for C8 (amended): the first ticket's block of the example
submission, with the attendee name escaped (`A B` to `A+B`) and the
email raw. -/
theorem submit_metadata_blocks_witness :
    ∃ db' s' P,
      submitOrderPost exCfg exDbOpen exSession = .ok db' s' []
        (.gatewayRelay exCfg.PAYMENT_URL P) ∧
      (metaKey 0 0, PV.s "Standard: A+B (a@b.com)") ∈ P ∧
      (metaKey 1 0, PV.s "1") ∈ P ∧
      (metaKey 2 0, PV.d 100) ∈ P ∧
      (metaKey 3 0, PV.d 100) ∈ P ∧
      (metaKey 4 0, PV.s "SPEED1") ∈ P ∧
      (metaKey 5 0, PV.s "ACCT9") ∈ P := by
  obtain ⟨db', s', P, h, h0, h1, h2, h3, h4, h5⟩ :=
    submit_metadata_blocks exCfg exDbOpen exSession exOrderData
      [exTicketA, exTicketC] exResolvedOpen rfl rfl rfl (by decide) 0 (by decide)
  exact ⟨db', s', P, h, h0, h1, h2, h3, h4, h5⟩

/-- C9: a non-authenticated GET of a draft workshop's Rate Selector
answers a redirect to the catalog root; an authenticated GET answers
the rendered page. -/
theorem workshop_detail_draft_access (w : Workshop) (req : DetailRequest)
    (s : Session) :
    (req.authenticated = false → w.draft = true →
      (workshopDetailGet w req s).2 = .redirect indexUrl) ∧
    (req.authenticated = true →
      (workshopDetailGet w req s).2 = .render (detailsUrl w.slug)) := by
  constructor
  · intro ha hd
    simp [workshopDetailGet, ha, hd]
  · intro ha
    simp [workshopDetailGet, ha]

/-- Witness for C9: the draft fixture redirects a guest and renders
for an authenticated viewer. -/
theorem workshop_detail_draft_access_witness :
    (workshopDetailGet exDraft ⟨none, false⟩ emptySession).2 = .redirect indexUrl ∧
    (workshopDetailGet exDraft ⟨none, true⟩ emptySession).2 =
      .render (detailsUrl "draft-2024") :=
  ⟨(workshop_detail_draft_access exDraft ⟨none, false⟩ emptySession).1 rfl rfl,
   (workshop_detail_draft_access exDraft ⟨none, true⟩ emptySession).2 rfl⟩

/-- C10: every GET of the Rate Selector overwrites the session's
`discount_code` entry with the `rate` query parameter — storing the
key with value `None` when the parameter is absent — and this write
also happens when the request ends in the draft-workshop redirect. -/
theorem workshop_detail_discount_overwrite (w : Workshop) (req : DetailRequest)
    (s : Session) :
    (workshopDetailGet w req s).1.discount_code = some req.rate_param ∧
    (req.rate_param = none →
      (workshopDetailGet w req s).1.discount_code = some none) ∧
    (req.authenticated = false → w.draft = true →
      (workshopDetailGet w req s).2 = .redirect indexUrl ∧
      (workshopDetailGet w req s).1.discount_code = some req.rate_param) := by
  refine ⟨?_, ?_, ?_⟩
  · simp only [workshopDetailGet]
    split <;> rfl
  · intro h
    simp only [workshopDetailGet, h]
    split <;> rfl
  · intro ha hd
    simp [workshopDetailGet, ha, hd]

/-- Witness for C10: a visit without the `rate` parameter to the draft
fixture clobbers a stashed discount code with `None` even though the
response is the draft redirect. -/
theorem workshop_detail_discount_overwrite_witness :
    (workshopDetailGet exDraft ⟨none, false⟩
        { emptySession with discount_code := some (some "early2024") }).1.discount_code
      = some none ∧
    (workshopDetailGet exDraft ⟨none, false⟩
        { emptySession with discount_code := some (some "early2024") }).2
      = .redirect indexUrl :=
  ⟨(workshop_detail_discount_overwrite exDraft ⟨none, false⟩
      { emptySession with discount_code := some (some "early2024") }).2.1 rfl,
   ((workshop_detail_discount_overwrite exDraft ⟨none, false⟩
      { emptySession with discount_code := some (some "early2024") }).2.2 rfl rfl).1⟩

end Payments
